import Mathlib

/-!
Verification of the VelocityCSO orchestration engine.

This development shallowly embeds the core pure logic of the repository:

* `src/agents/interrogator.ts` — deterministic pre-scoring of a business
  context against three keyword classes, and the decision procedure
  `evaluateInformationDensity` (turn budget, pre-score short-circuit,
  lens state-lock, provider-assisted scoring with defensive fallback);
* `src/coordinator.ts` — `robustParse` (neutral-default substitution for
  malformed specialist output), the specialist fan-in merge, and the pure
  post-parse computation of `triggerStressTest` (stressed scores, risk
  deltas, mitigation cards);
* `src/agents/discovery.ts` — the defensive parse of the discovery sweep;
* `src/services/sessionService.ts` and the `POST /analyze/clarify` handler
  of `src/index.ts` — the transactional turn increment with its processing
  lock, modelled as explicit state passing over an optional session
  document.

Effectful boundaries (the reasoning provider, Firestore, JSON.parse) are
modelled as explicit inputs: a provider reply that survives greedy JSON
extraction and `JSON.parse` is an `Option`-wrapped structure of the fields
the code reads, with `none` standing for any reply from which no JSON
object could be parsed.  JavaScript's `||` (falsy) and `??` (nullish)
defaulting are modelled by distinct helpers so the difference is visible.
-/

set_option autoImplicit false

namespace VelocityCSO

/-! ### JavaScript defaulting helpers -/

/-- Model of the JavaScript expression `v || dflt` on strings: the default is
taken when the value is `undefined` or the empty string (both falsy). -/
def jsOrStr (v : Option String) (dflt : String) : String :=
  match v with
  | some s => if s = "" then dflt else s
  | none => dflt

/-- Model of the JavaScript expression `v || dflt` on numbers: the default is
taken when the value is `undefined` or `0` (both falsy). -/
def jsOrNum (v : Option Int) (dflt : Int) : Int :=
  match v with
  | some n => if n = 0 then dflt else n
  | none => dflt

/-! ### Character classes and literal matching

The three keyword signals of `src/agents/interrogator.ts` are JavaScript
regular expressions built from literal alternatives wrapped in `\b(...)\b`,
plus two non-literal branches (`[A-Z][a-z]+\s+(Inc|Corp|Ltd|LLC|SaaS|AI|Tech)`
and `lock.?in`).  We implement the exact matching semantics over lists of
characters: `\w` is `[A-Za-z0-9_]`, `\b` is a word/non-word transition, and
the `i` flag lowercases both sides (ASCII case mapping, which covers every
keyword in the lists). -/

def lowerCode (n : Nat) : Nat := if 65 ≤ n ∧ n ≤ 90 then n + 32 else n

def isWordCode (n : Nat) : Bool :=
  (48 ≤ n && n ≤ 57) || (65 ≤ n && n ≤ 90) || (97 ≤ n && n ≤ 122) || n == 95

def isUpperCode (n : Nat) : Bool := 65 ≤ n && n ≤ 90

def isLowerCode (n : Nat) : Bool := 97 ≤ n && n ≤ 122

/-- The core of the JavaScript `\s` class (ASCII whitespace and NBSP; the
exotic Unicode space code points never occur in the embedded keyword data). -/
def isSpaceCode (n : Nat) : Bool :=
  n == 32 || n == 9 || n == 10 || n == 11 || n == 12 || n == 13 || n == 160

/-- The JavaScript `.` class: any character except line terminators. -/
def isDotCode (n : Nat) : Bool := !(n == 10 || n == 13 || n == 8232 || n == 8233)

def charEq (ci : Bool) (p c : Char) : Bool :=
  if ci then lowerCode p.toNat == lowerCode c.toNat else p.toNat == c.toNat

/-- Match a literal pattern at the head of the input; on success return the
remaining input. -/
def litMatch (ci : Bool) : List Char → List Char → Option (List Char)
  | [], s => some s
  | _ :: _, [] => none
  | p :: ps, c :: cs => if charEq ci p c then litMatch ci ps cs else none

/-- A `\b` position relative to the adjacent character on the far side of a
word character (start/end of input counts as a boundary). -/
def boundaryOk (c? : Option Char) : Bool :=
  match c? with
  | none => true
  | some c => !(isWordCode c.toNat)

/-- Scan every position of the input; at each position whose left side is a
word boundary, try `matchHere` (which must itself check the right-side
boundary).  This reproduces `\b(...)\b` alternation matching for branches
that begin with a word character — every branch in the source regexes does. -/
def scanPos (matchHere : List Char → Bool) (prev : Option Char) : List Char → Bool
  | [] => boundaryOk prev && matchHere []
  | c :: cs => (boundaryOk prev && matchHere (c :: cs)) || scanPos matchHere (some c) cs

/-- Try each literal keyword at the current position, requiring a word
boundary after the match. -/
def keywordHere (ci : Bool) (kws : List String) (s : List Char) : Bool :=
  kws.any (fun kw =>
    match litMatch ci kw.toList s with
    | some rest => boundaryOk rest.head?
    | none => false)

/-- Require at least one character satisfying `p`, then greedily drop the
rest (models `X+` for a character class `X` disjoint from what follows). -/
def dropWhilePlus (p : Char → Bool) : List Char → Option (List Char)
  | c :: cs => if p c then some (cs.dropWhile p) else none
  | [] => none

def BRAND_SUFFIXES : List String := ["Inc", "Corp", "Ltd", "LLC", "SaaS", "AI", "Tech"]

/-- The branch `[A-Z][a-z]+\s+(Inc|Corp|Ltd|LLC|SaaS|AI|Tech)` of
`COMPETITOR_KEYWORDS`, matched at the current position with the trailing
word boundary. -/
def brandHere (s : List Char) : Bool :=
  match s with
  | [] => false
  | c :: cs =>
    isUpperCode c.toNat &&
    (match dropWhilePlus (fun d => isLowerCode d.toNat) cs with
     | some rest1 =>
       match dropWhilePlus (fun d => isSpaceCode d.toNat) rest1 with
       | some rest2 => keywordHere false BRAND_SUFFIXES rest2
       | none => false
     | none => false)

/-- The branch `lock.?in` of `MOAT_KEYWORDS` (case-insensitive), matched at
the current position with the trailing word boundary. -/
def lockinHere (s : List Char) : Bool :=
  match litMatch true ("lock".toList) s with
  | none => false
  | some rest =>
    (match litMatch true ("in".toList) rest with
     | some r2 => boundaryOk r2.head?
     | none => false)
    ||
    (match rest with
     | [] => false
     | c :: cs =>
       isDotCode c.toNat &&
       (match litMatch true ("in".toList) cs with
        | some r2 => boundaryOk r2.head?
        | none => false))

/-! ### The three keyword signals (`src/agents/interrogator.ts`, lines 26–28) -/

def LOCATION_KEYWORDS : List String :=
  ["US", "UK", "EU", "Canada", "Australia", "India", "New York", "London",
   "California", "Texas", "Chicago", "nationwide", "global", "region",
   "city", "state", "country"]

/-- Literal branches of `COMPETITOR_KEYWORDS`.  The branch `vs\.?` is listed
as the literal `vs`: because the regex requires a trailing `\b` and `.` is a
non-word character, `vs\.?\b` matches exactly where word-bounded `vs`
matches. -/
def COMPETITOR_LITERALS : List String :=
  ["competitor", "vs", "against", "rival", "alternative", "instead of",
   "compared to", "Asana", "Monday", "Salesforce", "HubSpot", "Shopify",
   "Blue Yonder", "Crisp", "SAP", "Oracle", "AWS", "Google", "Microsoft",
   "Amazon"]

def MOAT_LITERALS : List String :=
  ["exclusive", "patent", "proprietary", "partnership", "contract",
   "license", "unique", "only", "can\x27t replicate", "cannot copy",
   "switching cost", "data advantage", "network effect", "retention",
   "NPS", "referral", "distributor", "supplier agreement"]

/-- `LOCATION_KEYWORDS.test(context)` — case-insensitive literal alternation. -/
def locationSignal (context : String) : Bool :=
  scanPos (keywordHere true LOCATION_KEYWORDS) none context.toList

/-- `COMPETITOR_KEYWORDS.test(context)` — case-sensitive literals plus the
company-name pattern branch. -/
def competitorSignal (context : String) : Bool :=
  scanPos (fun s => keywordHere false COMPETITOR_LITERALS s || brandHere s) none context.toList

/-- `MOAT_KEYWORDS.test(context)` — case-insensitive literals plus `lock.?in`. -/
def moatSignal (context : String) : Bool :=
  scanPos (fun s => keywordHere true MOAT_LITERALS s || lockinHere s) none context.toList

/-! ### Deterministic pre-scoring (`scoreContextDeterministically`) -/

def LENSES : List String := ["CUSTOMER/MARKET", "COMPETITOR/MOAT", "OPERATIONS/SUPPLY"]

/-- `scoreContextDeterministically` from `src/agents/interrogator.ts`: the
three keyword signals contribute 30, 30 and 40 points and mark their lens
covered, in source order. -/
def scoreContextDeterministically (context : String) : Nat × List String :=
  let s0 : Nat × List String := (0, [])
  let s1 := if locationSignal context then (s0.1 + 30, s0.2 ++ ["CUSTOMER/MARKET"]) else s0
  let s2 := if competitorSignal context then (s1.1 + 30, s1.2 ++ ["COMPETITOR/MOAT"]) else s1
  if moatSignal context then (s2.1 + 40, s2.2 ++ ["OPERATIONS/SUPPLY"]) else s2

/-! ### The interrogation engine (`InterrogatorAgent.evaluateInformationDensity`)

The provider call (greedy JSON extraction over the raw reply followed by
`JSON.parse`) is modelled as an input of type `Option InterrogatorParsed`:
`some p` is a reply from which a JSON object with the given fields was
extracted, `none` is a total parse failure.  The Firestore question
blacklist only affects the prompt text, not the returned structure, and is
not modelled. -/

structure IdBreakdown where
  specificity : Nat
  completeness : Nat
  moat : Nat
deriving Repr, DecidableEq

structure InterrogatorResult where
  category : String
  question : String
  isAuditable : Bool
  strategyContext : String
  idScore : Nat
  lensUsed : String
  idBreakdown : IdBreakdown
deriving Repr, DecidableEq

/-- Fields of the JSON object the code reads from the provider reply
(`p.category`, `p.id_score`, `p.lens_used`, `p.question`, `p.is_auditable`,
`p.strategy_context`); each is optional in the reply. -/
structure InterrogatorParsed where
  category : Option String
  id_score : Option Nat
  lens_used : Option String
  question : Option String
  is_auditable : Option Bool
  strategy_context : Option String
deriving Repr, DecidableEq

/-- Model of the JavaScript expression `v || dflt` on naturals (`p.id_score || 0`). -/
def jsOrNat (v : Option Nat) (dflt : Nat) : Nat :=
  match v with
  | some n => if n = 0 then dflt else n
  | none => dflt

/-- First-occurrence deduplication, as performed by
`[...new Set([...usedLenses, ...preScore.coveredLenses])]`. -/
def jsSetDedup (l : List String) : List String :=
  l.foldl (fun acc x => if x ∈ acc then acc else acc ++ [x]) []

/-- The engine's result plus whether the reasoning provider was invoked
(the code paths that return before constructing the `LlmAgent`). -/
structure InterrogatorOutcome where
  result : InterrogatorResult
  calledProvider : Bool
deriving Repr, DecidableEq

/-- The fixed fallback question returned on total parse failure. -/
def FALLBACK_QUESTION : String :=
  "What makes your business hard for a well-funded competitor to copy in the next 12 months?"

/-- `evaluateInformationDensity(groundedContext, turnCount, sessionId, usedLenses)`
from `src/agents/interrogator.ts`, with the provider reply abstracted:

1. turn budget: `turnCount >= 3` forces audit-ready;
2. deterministic pre-score `>= 70` short-circuits the provider;
3. state lock: all three lenses covered, or two covered with pre-score `>= 50`;
4. otherwise the provider is invoked and its reply parsed defensively. -/
def evaluateInformationDensity (groundedContext : String) (turnCount : Nat)
    (usedLenses : List String) (provider : Option InterrogatorParsed) :
    InterrogatorOutcome :=
  if turnCount ≥ 3 then
    ⟨{ category := "Unknown", question := "", isAuditable := true,
       strategyContext := groundedContext, idScore := 70, lensUsed := "",
       idBreakdown := ⟨70, 70, 70⟩ }, false⟩
  else
    let preScore := scoreContextDeterministically groundedContext
    if preScore.1 ≥ 70 then
      ⟨{ category := "B2B SaaS", question := "", isAuditable := true,
         strategyContext := groundedContext, idScore := preScore.1, lensUsed := "",
         idBreakdown := ⟨preScore.1, preScore.1, preScore.1⟩ }, false⟩
    else
      let effectiveUsedLenses := jsSetDedup (usedLenses ++ preScore.2)
      if effectiveUsedLenses.length ≥ 3 ∨
          (effectiveUsedLenses.length = 2 ∧ preScore.1 ≥ 50) then
        ⟨{ category := "Strategic Business", question := "", isAuditable := true,
           strategyContext := groundedContext, idScore := max 70 preScore.1,
           lensUsed := "", idBreakdown := ⟨70, 70, 70⟩ }, false⟩
      else
        match provider with
        | some p =>
          let idScore := min 100 (jsOrNat p.id_score 0)
          let lensUsed := jsOrStr p.lens_used ""
          let isAuditable := p.is_auditable = some true ∨ idScore ≥ 70 ∨
            (effectiveUsedLenses.length = 2 ∧ idScore ≥ 50)
          ⟨{ category := jsOrStr p.category "Unknown",
             question := jsOrStr p.question "",
             isAuditable := isAuditable,
             strategyContext := jsOrStr p.strategy_context groundedContext,
             idScore := idScore, lensUsed := lensUsed,
             idBreakdown := ⟨idScore, idScore, idScore⟩ }, true⟩
        | none =>
          ⟨{ category := "Unknown", question := FALLBACK_QUESTION,
             isAuditable := false, strategyContext := groundedContext,
             idScore := 20, lensUsed := "",
             idBreakdown := ⟨20, 15, 10⟩ }, true⟩

/-! ### JavaScript-object maps

Score maps (`dimensionScores`, `stressed_scores`, `finalDimensions`, …) are
modelled as association lists in insertion order, with `mapLookup` for
bracket access and `objectMerge` for `{ ...a, ...b }` / `Object.assign(a, b)`:
keys of `a` keep their position (values overridden by `b` where present),
keys only in `b` are appended in `b`'s order. -/

def mapLookup {α : Type} (m : List (String × α)) (k : String) : Option α :=
  (m.find? (fun kv => kv.1 == k)).map (fun kv => kv.2)

def objectMerge {α : Type} (a b : List (String × α)) : List (String × α) :=
  (a.map (fun kv =>
    match mapLookup b kv.1 with
    | some v => (kv.1, v)
    | none => kv)) ++
  b.filter (fun kv => (mapLookup a kv.1).isNone)

/-- The fixed 15-dimension catalog (identical in `coordinator.ts` and
`index.ts`). -/
def DIM_NAMES : List String :=
  ["TAM Viability", "Target Precision", "Trend Adoption",
   "Competitive Defensibility", "Model Innovation", "Flywheel Potential",
   "Pricing Power", "CAC/LTV Ratio", "Market Entry Speed",
   "Execution Speed", "Scalability", "ESG Posture",
   "ROI Projection", "Risk Tolerance", "Capital Efficiency"]

/-! ### Stress-test computation (`ChiefStrategyAgent.triggerStressTest`)

Everything after the provider reply is pure: greedy JSON extraction plus
`JSON.parse` is abstracted into an `Option StressParsed` input (`none`
covers both "no `{...}` block found" and "`JSON.parse` threw", which leave
`stressedScores = {}` and `rawMitigationCards = []`).  An absent
`stressed_scores` / `mitigation_cards` field (`parsed.stressed_scores || {}`,
`parsed.mitigation_cards || []`) is represented by the empty list. -/

structure ParsedMitigationCard where
  dimension : String
  stressed_score : Int
  mitigation_steps : List String
  cso_crisis_play : String
deriving Repr, DecidableEq

structure StressParsed where
  stressed_scores : List (String × Int)
  mitigation_cards : List ParsedMitigationCard
deriving Repr, DecidableEq

structure MitigationCard where
  dimension : String
  stressedScore : Int
  riskDelta : Int
  mitigationSteps : List String
  csoCrisisPlay : String
deriving Repr, DecidableEq

structure StressResult where
  originalScores : List (String × Int)
  stressedScores : List (String × Int)
  riskDeltas : List (String × Int)
  mitigationCards : List MitigationCard
deriving Repr, DecidableEq

/-- The per-card mapping of `triggerStressTest`:
`riskDelta: (memory.dimensionScores[c.dimension] || 50) - c.stressed_score`
— note the falsy `||`, which takes 50 both when the dimension is absent
from the baseline and when its baseline score is 0. -/
def mkMitigationCard (memScores : List (String × Int)) (c : ParsedMitigationCard) :
    MitigationCard :=
  { dimension := c.dimension,
    stressedScore := c.stressed_score,
    riskDelta := jsOrNum (mapLookup memScores c.dimension) 50 - c.stressed_score,
    mitigationSteps := c.mitigation_steps,
    csoCrisisPlay := c.cso_crisis_play }

/-- The pure tail of `triggerStressTest` (`coordinator.ts` lines 416–455):
mitigation cards are mapped verbatim from the parsed reply, and
`riskDeltas` is recomputed over the catalog with nullish (`??`) defaults:
baseline defaults to 50, stressed defaults to the baseline. -/
def triggerStressTestCompute (memScores : List (String × Int))
    (parsed : Option StressParsed) : StressResult :=
  let stressedScores := match parsed with
    | some p => p.stressed_scores
    | none => []
  let rawMitigationCards := match parsed with
    | some p => p.mitigation_cards.map (mkMitigationCard memScores)
    | none => []
  let riskDeltas := DIM_NAMES.map (fun dim =>
    let original := (mapLookup memScores dim).getD 50
    let stressed := (mapLookup stressedScores dim).getD original
    (dim, stressed - original))
  { originalScores := memScores,
    stressedScores := stressedScores,
    riskDeltas := riskDeltas,
    mitigationCards := rawMitigationCards }

/-! ### Specialist parsing and fan-in (`robustParse` / `analyze`) -/

/-- `fallback.dimensions` of `robustParse`: all 15 catalog dimensions at 50. -/
def fallbackDimensions : List (String × Int) := DIM_NAMES.map (fun d => (d, 50))

/-- Fields of the JSON object a specialist reply may carry. -/
structure SpecialistParsed where
  analysis_markdown : Option String
  dimensions : Option (List (String × Int))
  confidence_score : Option Int
deriving Repr, DecidableEq

structure SpecialistResult where
  analysis_markdown : String
  dimensions : List (String × Int)
  confidence_score : Int
deriving Repr, DecidableEq

/-- `ChiefStrategyAgent.robustParse(agentName, raw)` with the JSON step
abstracted: `none` covers "no `{...}` block" and "`JSON.parse` threw", both
of which return the fallback (`analysis_markdown = raw`, all 15 dimensions
at 50, confidence 50).  On success the spread `{ ...fallback, ...parsed }`
keeps a fallback field only where the reply omits it, and
`dimensions: { ...fallback.dimensions, ...(parsed.dimensions || {}) }`
overlays the reply's dimensions on the 15×50 default map. -/
def robustParse (raw : String) (parsed : Option SpecialistParsed) : SpecialistResult :=
  match parsed with
  | none =>
    { analysis_markdown := raw, dimensions := fallbackDimensions, confidence_score := 50 }
  | some p =>
    { analysis_markdown := p.analysis_markdown.getD raw,
      dimensions := objectMerge fallbackDimensions (p.dimensions.getD []),
      confidence_score := p.confidence_score.getD 50 }

/-- `finalDimensions` before the fan-in: all 15 catalog dimensions at 0. -/
def initialDimensions : List (String × Int) := DIM_NAMES.map (fun d => (d, 0))

/-- One fan-in step of `analyze`:
`Object.assign(finalDimensions, result.dimensions)`. -/
def mergeSpecialist (finalDimensions : List (String × Int)) (r : SpecialistResult) :
    List (String × Int) :=
  objectMerge finalDimensions r.dimensions

/-- The fan-in of `analyze`: specialist results are merged into
`finalDimensions` in completion order. -/
def mergeSpecialists (results : List SpecialistResult) : List (String × Int) :=
  results.foldl mergeSpecialist initialDimensions

/-! ### Discovery sweep parsing (`DiscoveryAgent.discover`) -/

structure DiscoveryResult where
  findings : String
  gaps : List String
  isComplete : Bool
  summary : String
deriving Repr, DecidableEq

structure DiscoveryParsed where
  findings : Option String
  gaps : Option (List String)
  is_complete : Option Bool
  summary : Option String
deriving Repr, DecidableEq

/-- The parse step of `discover` (`src/agents/discovery.ts` lines 98–117):
on success the fields default with `||` (falsy) except
`is_complete ?? true` (nullish); on a `JSON.parse` failure the catch block
returns the raw output as findings, no gaps, and `isComplete: true`. -/
def discoverResult (rawOutput : String) (parsed : Option DiscoveryParsed) :
    DiscoveryResult :=
  match parsed with
  | some p =>
    { findings := jsOrStr p.findings rawOutput,
      gaps := (p.gaps).getD [],
      isComplete := (p.is_complete).getD true,
      summary := jsOrStr p.summary "Discovery scan complete." }
  | none =>
    { findings := rawOutput,
      gaps := [],
      isComplete := true,
      summary := "Discovery scan complete. Proceeding with provided context." }

/-- `ChiefStrategyAgent.evaluateCompleteness`: proceed when the sweep is
complete or reported no gaps; otherwise surface the first two gaps joined
into one clarification gap. -/
def evaluateCompleteness (discovery : DiscoveryResult) : Bool × Option String :=
  if discovery.isComplete || discovery.gaps.isEmpty then
    (true, none)
  else
    (false, some (String.intercalate ". " (discovery.gaps.take 2)))

/-! ### Session store and the clarification turn (`sessionService.ts`, `index.ts`)

The Firestore document for one session id is modelled as an
`Option SessionDoc` (absent or present) threaded explicitly; `runTransaction`
serialises conflicting updates, so the transactional `incrementTurn` is a
function from store state to store state plus return value. -/

structure SessionDoc where
  originalContext : String
  enrichedContext : String
  discoveryFindings : String
  gaps : List String
  turnCount : Nat
  usedLenses : List String
  processing : Bool
  createdAt : Nat
  expiresAt : Nat
deriving Repr, DecidableEq

def SESSION_TTL_MS : Nat := 60 * 60 * 1000

/-- `saveSession`: writes the document with `createdAt = now` and
`expiresAt = now + TTL`.  The `processing` field is not written, so the
later read `data?.processing === true` is false: modelled as `false`. -/
def saveSession (now : Nat) (originalContext enrichedContext discoveryFindings : String)
    (gaps : List String) (turnCount : Nat) (usedLenses : List String) : SessionDoc :=
  { originalContext := originalContext, enrichedContext := enrichedContext,
    discoveryFindings := discoveryFindings, gaps := gaps, turnCount := turnCount,
    usedLenses := usedLenses, processing := false,
    createdAt := now, expiresAt := now + SESSION_TTL_MS }

/-- `getSession`: not-found stays not-found; an expired document
(`now > expiresAt`) is lazily deleted and reported not-found.  Returns the
store after the read and the read result. -/
def getSession (store : Option SessionDoc) (now : Nat) :
    Option SessionDoc × Option SessionDoc :=
  match store with
  | none => (none, none)
  | some d => if now > d.expiresAt then (none, none) else (some d, some d)

/-- `incrementTurn(sessionId, enrichedContext, gaps, lensUsed?)`: inside one
transaction, a missing document or `processing === true` yields `null` and
leaves the store untouched; otherwise the turn counter is incremented, the
new context, gaps and lens set are written, and the lock is taken
(`processing: true`).  `(data?.turnCount as number) || 0` is the identity
on a `Nat` field that is always present. -/
def incrementTurn (store : Option SessionDoc) (enrichedContext : String)
    (gaps : List String) (lensUsed : Option String) :
    Option SessionDoc × Option (Nat × List String) :=
  match store with
  | none => (none, none)
  | some d =>
    if d.processing then (some d, none)
    else
      let current := d.turnCount
      let usedLenses := match lensUsed with
        | some l => if l ∈ d.usedLenses then d.usedLenses else d.usedLenses ++ [l]
        | none => d.usedLenses
      let next := current + 1
      (some { d with turnCount := next, enrichedContext := enrichedContext,
                     gaps := gaps, processing := true, usedLenses := usedLenses },
       some (next, usedLenses))

/-- `releaseLock`: clears `processing`; a deleted session is left alone. -/
def releaseLock (store : Option SessionDoc) : Option SessionDoc :=
  match store with
  | none => none
  | some d => some { d with processing := false }

/-- The separator the clarify handler inserts between the base context and
the user's clarification. -/
def CLARIFICATION_SEP : String := "\n\n[USER CLARIFICATION]: "

/-- `cumulativeContext` of the `POST /analyze/clarify` handler:
`` `${session.originalContext || session.enrichedContext}\n\n[USER CLARIFICATION]: ${clarification}` ``. -/
def cumulativeContext (session : SessionDoc) (clarification : String) : String :=
  jsOrStr (some session.originalContext) session.enrichedContext
    ++ CLARIFICATION_SEP ++ clarification

/-- What the clarify handler reports back for the turn-update step. -/
inductive ClarifyOutcome where
  | notFound
  | alreadyProcessing
  | proceeded (turnCount : Nat) (usedLenses : List String)
deriving Repr, DecidableEq

/-- The state-mutating prefix of `POST /analyze/clarify` (`src/index.ts`
lines 234–266): read the session (404 when absent/expired), rebuild the
cumulative context from `originalContext`, and run the transactional turn
increment; a `null` from `incrementTurn` is surfaced as the distinct
"Request already processing" error event. -/
def clarifyStep (store : Option SessionDoc) (now : Nat) (clarification : String) :
    Option SessionDoc × ClarifyOutcome :=
  match getSession store now with
  | (store', none) => (store', .notFound)
  | (store', some session) =>
    match incrementTurn store' (cumulativeContext session clarification) session.gaps none with
    | (store'', none) => (store'', .alreadyProcessing)
    | (store'', some (turnCount, usedLenses)) => (store'', .proceeded turnCount usedLenses)

/-- Case-sensitive substring containment, used to state the append-only
property of `enrichedContext` ("each successive stored value contains the
previous one"). -/
def strContains (hay needle : String) : Bool :=
  scanSub (needle.toList) (hay.toList)
where
  scanSub : List Char → List Char → Bool
    | pat, [] => (litMatch false pat []).isSome
    | pat, c :: cs => (litMatch false pat (c :: cs)).isSome || scanSub pat cs

/-! ### Concrete example inputs used in counterexamples and witnesses -/

/-- The example context of the specification. -/
def KORAMANGALA_CONTEXT : String :=
  "Grocery store near Koramangala, competing with Reliance Smart, exclusive deal with 3 local farmers"

/-- A successfully parsed market-specialist reply carrying its three owned
dimensions, used to exhibit the fan-in overwrite. -/
def marketParsedEx : SpecialistParsed :=
  { analysis_markdown := some "market analysis",
    dimensions := some [("TAM Viability", 80), ("Target Precision", 70),
                        ("Trend Adoption", 60)],
    confidence_score := some 90 }

/-- A session as the `/analyze` handler first saves it: original and
enriched context both equal the submitted business context, turn count 1. -/
def sessionEx : SessionDoc :=
  saveSession 0 ("We run a shop") ("We run a shop") ("") [] 1 []

/-- A parsed stress reply carrying one mitigation card for `CAC/LTV Ratio`
stressed to 32. -/
def stressParsedEx : StressParsed :=
  { stressed_scores := [("CAC/LTV Ratio", 32)],
    mitigation_cards := [{ dimension := "CAC/LTV Ratio", stressed_score := 32,
                           mitigation_steps := [], cso_crisis_play := "" }] }

/-- The mitigation card the stress computation produces from
`stressParsedEx` against a baseline of 70. -/
def stressCardEx : MitigationCard :=
  { dimension := "CAC/LTV Ratio", stressedScore := 32, riskDelta := 38,
    mitigationSteps := [], csoCrisisPlay := "" }

/-- The baseline map for the stress-test witness. -/
def baselineEx : List (String × Int) := [("CAC/LTV Ratio", 70)]

/-! ### Association-list lemmas -/

theorem mapLookup_nil {α : Type} (k : String) :
    mapLookup ([] : List (String × α)) k = none := rfl

theorem mapLookup_cons {α : Type} (x : String × α) (m : List (String × α)) (k : String) :
    mapLookup (x :: m) k = if x.1 = k then some x.2 else mapLookup m k := by
  by_cases h : x.1 = k
  · simp [mapLookup, List.find?, h]
  · have hb : (x.1 == k) = false := beq_eq_false_iff_ne.mpr h
    simp [mapLookup, List.find?, h, hb]

theorem mapLookup_map_self {α : Type} (f : String → α) (l : List String) (d : String)
    (hd : d ∈ l) : mapLookup (l.map (fun x => (x, f x))) d = some (f d) := by
  induction l with
  | nil => simp at hd
  | cons x xs ih =>
    rw [List.map_cons, mapLookup_cons]
    by_cases h : x = d
    · simp [h]
    · have hxs : d ∈ xs := by
        rcases List.mem_cons.mp hd with h' | h'
        · exact absurd h'.symm h
        · exact h'
      simp [h, ih hxs]

theorem mapLookup_append {α : Type} (l₁ l₂ : List (String × α)) (k : String) :
    mapLookup (l₁ ++ l₂) k =
      match mapLookup l₁ k with
      | some v => some v
      | none => mapLookup l₂ k := by
  induction l₁ with
  | nil => simp [mapLookup_nil]
  | cons x xs ih =>
    rw [List.cons_append, mapLookup_cons, mapLookup_cons]
    by_cases h : x.1 = k <;> simp [h, ih]

theorem mapLookup_mergeLeft {α : Type} (a b : List (String × α)) (d : String) :
    mapLookup (a.map (fun kv =>
      match mapLookup b kv.1 with
      | some v => (kv.1, v)
      | none => kv)) d =
      match mapLookup a d with
      | some w =>
        match mapLookup b d with
        | some v => some v
        | none => some w
      | none => none := by
  induction a with
  | nil => simp [mapLookup_nil]
  | cons kv a' ih =>
    rw [List.map_cons, mapLookup_cons, mapLookup_cons]
    by_cases h : kv.1 = d
    · subst h
      cases hb : mapLookup b kv.1 <;> simp [hb]
    · cases hb : mapLookup b kv.1 <;> simp [hb, h, ih]

theorem mapLookup_filterNew {α : Type} (a b : List (String × α)) (d : String)
    (ha : mapLookup a d = none) :
    mapLookup (b.filter (fun kv => (mapLookup a kv.1).isNone)) d = mapLookup b d := by
  induction b with
  | nil => simp
  | cons kv b' ih =>
    rw [mapLookup_cons, List.filter_cons]
    by_cases h : kv.1 = d
    · subst h
      simp [ha, mapLookup_cons]
    · by_cases hq : (mapLookup a kv.1).isNone <;> simp [hq, mapLookup_cons, h, ih]

theorem mapLookup_objectMerge_right {α : Type} (a b : List (String × α)) (d : String) (v : α)
    (hb : mapLookup b d = some v) : mapLookup (objectMerge a b) d = some v := by
  unfold objectMerge
  rw [mapLookup_append, mapLookup_mergeLeft]
  cases ha : mapLookup a d with
  | some w => simp [hb]
  | none => simp [mapLookup_filterNew a b d ha, hb]

theorem mapLookup_fallbackDimensions (d : String) (hd : d ∈ DIM_NAMES) :
    mapLookup fallbackDimensions d = some 50 :=
  mapLookup_map_self (fun _ => (50 : Int)) DIM_NAMES d hd
/-! ### Claim C1 — risk deltas -/

/-- C1: for every stress-test computation over an existing audit record, for
every catalog dimension present both in the baseline map loaded from the
audit record and in the parsed provider response, the returned `riskDeltas`
entry equals the stressed score minus the original score (negative
indicating degradation). -/
theorem stress_riskDeltas_eq_stressed_sub_original
    (memScores : List (String × Int)) (parsed : Option StressParsed)
    (d : String) (o s : Int)
    (hd : d ∈ DIM_NAMES)
    (ho : mapLookup (triggerStressTestCompute memScores parsed).originalScores d = some o)
    (hs : mapLookup (triggerStressTestCompute memScores parsed).stressedScores d = some s) :
    mapLookup (triggerStressTestCompute memScores parsed).riskDeltas d = some (s - o) := by
  cases parsed with
  | none => simp [triggerStressTestCompute, mapLookup_nil] at hs
  | some p =>
    have ho' : mapLookup memScores d = some o := ho
    have hs' : mapLookup p.stressed_scores d = some s := hs
    have hmap := mapLookup_map_self
      (fun dim => (mapLookup p.stressed_scores dim).getD ((mapLookup memScores dim).getD 50)
        - (mapLookup memScores dim).getD 50) DIM_NAMES d hd
    simp only [triggerStressTestCompute]
    rw [hmap]
    simp [ho', hs']

/-- Witness for C1, mirroring the worked example of the specification:
baseline `CAC/LTV Ratio` 70 stressed to 32 yields a risk delta of −38. -/
theorem stress_riskDeltas_eq_stressed_sub_original_witness :
    mapLookup (triggerStressTestCompute [("CAC/LTV Ratio", 70)]
      (some { stressed_scores := [("CAC/LTV Ratio", 32)],
              mitigation_cards := [] })).riskDeltas ("CAC/LTV Ratio") = some (-38) := by
  have h := stress_riskDeltas_eq_stressed_sub_original
    [("CAC/LTV Ratio", 70)]
    (some { stressed_scores := [("CAC/LTV Ratio", 32)], mitigation_cards := [] })
    ("CAC/LTV Ratio") 70 32 (by decide) (by decide) (by decide)
  simpa using h

/-! ### Claim C2 — mitigation-card threshold -/

/-- C2 counterexample: a parsed provider reply can report a stressed score
strictly below 40 (here 10) while carrying no mitigation card for that
dimension; the code copies the parsed card list verbatim, so the resulting
`StressResult` violates "a dimension appears in `mitigationCards` if and
only if its stressed score is strictly below 40". -/
theorem stress_mitigation_threshold_counterexample :
    mapLookup (triggerStressTestCompute [("TAM Viability", 80)]
        (some { stressed_scores := [("TAM Viability", 10)],
                mitigation_cards := [] })).stressedScores ("TAM Viability") = some 10
    ∧ (10 : Int) < 40
    ∧ ¬ ∃ c ∈ (triggerStressTestCompute [("TAM Viability", 80)]
        (some { stressed_scores := [("TAM Viability", 10)],
                mitigation_cards := [] })).mitigationCards,
        c.dimension = "TAM Viability" := by
  refine ⟨by decide, by decide, ?_⟩
  simp [triggerStressTestCompute]

/-- C2 amended: a dimension appears in `mitigationCards` exactly when the
parsed provider response lists a mitigation card for it — the cards are
mapped verbatim from the reply; the below-40 threshold is requested in the
prompt but not enforced by the code. -/
theorem stress_mitigationCards_match_parsed
    (memScores : List (String × Int)) (p : StressParsed) :
    ((triggerStressTestCompute memScores (some p)).mitigationCards).map
        (fun c => c.dimension)
      = p.mitigation_cards.map (fun c => c.dimension) := by
  simp [triggerStressTestCompute, List.map_map, Function.comp_def, mkMitigationCard]

/-! ### Claim C10 — per-card risk delta -/

/-- C10 counterexample: the card's `riskDelta` uses the falsy default
`memory.dimensionScores[c.dimension] || 50`, so a baseline score that is
present but 0 is also replaced by 50: with baseline 0 and stressed score
10 the produced card carries `riskDelta = 40`, not `0 − 10 = −10` as the
claim ("defaulting to 50 when the dimension is absent") would require. -/
theorem card_riskDelta_zero_baseline_counterexample :
    (triggerStressTestCompute [("TAM Viability", 0)]
      (some { stressed_scores := [("TAM Viability", 10)],
              mitigation_cards := [{ dimension := "TAM Viability",
                                     stressed_score := 10,
                                     mitigation_steps := [],
                                     cso_crisis_play := "" }] })).mitigationCards
      = [{ dimension := "TAM Viability", stressedScore := 10, riskDelta := 40,
           mitigationSteps := [], csoCrisisPlay := "" }]
    ∧ (40 : Int) ≠ 0 - 10 := by
  constructor
  · decide
  · decide

/-- C10 amended: each produced mitigation card's `riskDelta` equals the
baseline score minus the stressed score, with the baseline defaulting to 50
when the card's dimension is absent from the stored baseline map or its
stored baseline score is 0 (the code uses the falsy `|| 50`); for a present
non-zero baseline this is the negation of the top-level `riskDeltas` sign
convention, so a degraded dimension carries a positive `riskDelta` on its
card. -/
theorem card_riskDelta_falsy_baseline
    (memScores : List (String × Int)) (p : StressParsed) (card : MitigationCard)
    (hcard : card ∈ (triggerStressTestCompute memScores (some p)).mitigationCards) :
    (∀ o, mapLookup memScores card.dimension = some o → o ≠ 0 →
        card.riskDelta = o - card.stressedScore) ∧
    ((mapLookup memScores card.dimension = none ∨
        mapLookup memScores card.dimension = some 0) →
        card.riskDelta = 50 - card.stressedScore) ∧
    (∀ o, mapLookup memScores card.dimension = some o → o ≠ 0 →
        card.dimension ∈ DIM_NAMES →
        mapLookup p.stressed_scores card.dimension = some card.stressedScore →
        mapLookup (triggerStressTestCompute memScores (some p)).riskDeltas card.dimension
          = some (- card.riskDelta)) := by
  simp only [triggerStressTestCompute, List.mem_map] at hcard
  obtain ⟨c, hc, rfl⟩ := hcard
  simp only [mkMitigationCard]
  refine ⟨?_, ?_, ?_⟩
  · intro o ho hoz
    simp [jsOrNum, ho, hoz]
  · intro hdef
    rcases hdef with h | h <;> simp [jsOrNum, h]
  · intro o ho hoz hd hs
    have hmap := mapLookup_map_self
      (fun dim => (mapLookup p.stressed_scores dim).getD ((mapLookup memScores dim).getD 50)
        - (mapLookup memScores dim).getD 50) DIM_NAMES _ hd
    simp only [triggerStressTestCompute]
    rw [hmap]
    simp [jsOrNum, ho, hs, hoz, neg_sub]

/-! ### Claim C3 — turn budget -/

/-- C3: for every session context and lens state, a call to the
interrogation engine with `turnCount` at or above 3 returns
`isAuditable = true`, regardless of the density score, the lens coverage,
or the provider reply. -/
theorem interrogator_turn_budget_forces_auditable
    (groundedContext : String) (turnCount : Nat) (usedLenses : List String)
    (provider : Option InterrogatorParsed)
    (h : 3 ≤ turnCount) :
    (evaluateInformationDensity groundedContext turnCount usedLenses provider).result.isAuditable
      = true := by
  simp [evaluateInformationDensity, h]

/-- Witness for C3: a content-free context at turn 3 (pre-score 0) is still
promoted to audit-ready, even when the provider reply is unparseable. -/
theorem interrogator_turn_budget_forces_auditable_witness :
    3 ≤ 3 ∧
    (evaluateInformationDensity ("We sell software") 3 [] none).result.isAuditable = true :=
  ⟨by decide, interrogator_turn_budget_forces_auditable ("We sell software") 3 [] none (by decide)⟩

/-! ### Claim C8 — deterministic pre-score short-circuit -/

/-- C8: for every context in which all three keyword classes match (a
location/demographic reference, a named competitor or constraint, and a
unique advantage), the deterministic pre-score is exactly 100, and a call
below the turn budget returns `isAuditable = true` without invoking the
reasoning provider. -/
theorem prescore_shortcircuit
    (groundedContext : String) (turnCount : Nat) (usedLenses : List String)
    (provider : Option InterrogatorParsed)
    (hloc : locationSignal groundedContext = true)
    (hcomp : competitorSignal groundedContext = true)
    (hmoat : moatSignal groundedContext = true)
    (hturn : turnCount < 3) :
    (scoreContextDeterministically groundedContext).1 = 100 ∧
    (evaluateInformationDensity groundedContext turnCount usedLenses provider).result.isAuditable
      = true ∧
    (evaluateInformationDensity groundedContext turnCount usedLenses provider).calledProvider
      = false := by
  have hscore : (scoreContextDeterministically groundedContext).1 = 100 := by
    simp [scoreContextDeterministically, hloc, hcomp, hmoat]
  have hn : ¬ turnCount ≥ 3 := by omega
  refine ⟨hscore, ?_, ?_⟩ <;> simp [evaluateInformationDensity, hn, hscore]

/-- Witness for C8: "India vs exclusive" matches all three keyword classes
("India" for location, word-bounded "vs" for competitor, "exclusive" for
moat), pre-scores 100, and is audit-ready at turn 0 with no provider call. -/
theorem prescore_shortcircuit_witness :
    locationSignal ("India vs exclusive") = true ∧
    competitorSignal ("India vs exclusive") = true ∧
    moatSignal ("India vs exclusive") = true ∧
    (0 : Nat) < 3 ∧
    ((scoreContextDeterministically ("India vs exclusive")).1 = 100 ∧
     (evaluateInformationDensity ("India vs exclusive") 0 [] none).result.isAuditable = true ∧
     (evaluateInformationDensity ("India vs exclusive") 0 [] none).calledProvider = false) :=
  ⟨by decide, by decide, by decide, by decide,
   prescore_shortcircuit ("India vs exclusive") 0 [] none
     (by decide) (by decide) (by decide) (by decide)⟩

/-! ### Claim C9 — the Koramangala example -/


/-- C9 counterexample: the example context pre-scores 40, not 100 — none of
the location keywords match ("Koramangala" is not in the list), the
competitor regex matches neither "competing" nor "Reliance Smart", and only
the moat class matches (via "exclusive").  Consequently the engine does not
short-circuit: at turn 0 it calls the provider, and on an unparseable reply
it returns `isAuditable = false` with a fallback question. -/
theorem koramangala_prescore_counterexample :
    (scoreContextDeterministically KORAMANGALA_CONTEXT).1 = 40 ∧
    (scoreContextDeterministically KORAMANGALA_CONTEXT).1 ≠ 100 ∧
    (evaluateInformationDensity KORAMANGALA_CONTEXT 0 [] none).result.isAuditable = false ∧
    (evaluateInformationDensity KORAMANGALA_CONTEXT 0 [] none).result.question
      = FALLBACK_QUESTION := by
  refine ⟨by decide, by decide, ?_, ?_⟩ <;> decide

/-- C9 amended: the example context pre-scores 40 with only the
operations/supply lens covered (the moat keyword "exclusive"); the
deterministic short-circuit is not taken and the reasoning provider is
invoked for every possible provider reply, so the outcome depends on that
reply rather than being unconditionally audit-ready. -/
theorem koramangala_prescore_40 :
    scoreContextDeterministically KORAMANGALA_CONTEXT = (40, ["OPERATIONS/SUPPLY"]) ∧
    ∀ provider, (evaluateInformationDensity KORAMANGALA_CONTEXT 0 [] provider).calledProvider
      = true := by
  have hscore : scoreContextDeterministically KORAMANGALA_CONTEXT
      = (40, ["OPERATIONS/SUPPLY"]) := by decide
  refine ⟨hscore, ?_⟩
  intro provider
  cases provider <;> simp [evaluateInformationDensity, hscore, jsSetDedup]

/-! ### Claim C5 — discovery parse failure -/

/-- C5 counterexample: on a provider reply from which no JSON can be parsed,
the catch block of `discover` returns `isComplete = true` with an empty gap
list — not `isComplete = false` with two synthesized clarifying questions
as the claim states. -/
theorem discovery_parse_failure_counterexample :
    (discoverResult ("no structured output here") none).isComplete = true ∧
    (discoverResult ("no structured output here") none).gaps = [] := by
  exact ⟨rfl, rfl⟩

/-- C5 amended: for every discovery-sweep provider response from which no
JSON object can be parsed, the sweep result treats the whole raw output as
findings with no gaps and `isComplete = true`, and the downstream
completeness check therefore proceeds to analysis — the code silently
proceeds rather than synthesizing clarifying questions. -/
theorem discovery_parse_failure_proceeds (rawOutput : String) :
    (discoverResult rawOutput none).findings = rawOutput ∧
    (discoverResult rawOutput none).gaps = [] ∧
    (discoverResult rawOutput none).isComplete = true ∧
    (evaluateCompleteness (discoverResult rawOutput none)).1 = true := by
  refine ⟨rfl, rfl, rfl, ?_⟩
  simp [evaluateCompleteness, discoverResult]

/-! ### Claim C6 — specialist neutral default -/


/-- C6 counterexample: the neutral default substituted for an unparseable
specialist reply carries all 15 catalog dimensions at 50 — not just that
specialist's three — and merging it with `Object.assign` overwrites a
previously merged score (TAM Viability 80 from a successful specialist
becomes 50), so the other specialists' already-merged dimension scores are
not left unchanged. -/
theorem specialist_fallback_counterexample :
    ((robustParse ("not json") none).dimensions).length = 15 ∧
    mapLookup (mergeSpecialist initialDimensions
        (robustParse ("ok") (some marketParsedEx))) ("TAM Viability") = some 80 ∧
    mapLookup (mergeSpecialist
        (mergeSpecialist initialDimensions (robustParse ("ok") (some marketParsedEx)))
        (robustParse ("not json") none)) ("TAM Viability") = some 50 := by
  refine ⟨by decide, by decide, by decide⟩

/-- C6 amended: the neutral default substituted for an unparseable
specialist reply sets all 15 catalog dimensions to 50 and its confidence to
50; merging it into the running `finalDimensions` map leaves every catalog
dimension at 50, overwriting whatever the other specialists had already
merged — the run still completes with a full 15-dimension map rather than
aborting. -/
theorem specialist_fallback_overwrites_all_dimensions
    (raw : String) (finalDimensions : List (String × Int)) (d : String)
    (hd : d ∈ DIM_NAMES) :
    (robustParse raw none).confidence_score = 50 ∧
    mapLookup (mergeSpecialist finalDimensions (robustParse raw none)) d = some 50 := by
  constructor
  · rfl
  · exact mapLookup_objectMerge_right finalDimensions fallbackDimensions d 50
      (mapLookup_fallbackDimensions d hd)

/-- Witness for C6 (amended): merging the fallback over a map that scored
`Pricing Power` at 95 leaves `Pricing Power` at 50. -/
theorem specialist_fallback_overwrites_all_dimensions_witness :
    ("Pricing Power" : String) ∈ DIM_NAMES ∧
    ((robustParse ("oops") none).confidence_score = 50 ∧
     mapLookup (mergeSpecialist [("Pricing Power", 95)] (robustParse ("oops") none))
       ("Pricing Power") = some 50) :=
  ⟨by decide,
   specialist_fallback_overwrites_all_dimensions ("oops") [("Pricing Power", 95)]
     ("Pricing Power") (by decide)⟩

/-! ### Claim C4 — enriched-context and turn-count invariants -/


/-- C4 counterexample: across two completed clarification turns the stored
`enrichedContext` is rebuilt from `originalContext` each time, so the
second stored value does not contain the first — the append-only half of
the claim fails (the turn counter does strictly increase: 1 → 2 → 3). -/
theorem enrichedContext_append_only_counterexample :
    ((clarifyStep (some sessionEx) 1 ("We target students")).1.map
        (fun d => d.enrichedContext))
      = some ("We run a shop\n\n[USER CLARIFICATION]: We target students") ∧
    ((clarifyStep (releaseLock (clarifyStep (some sessionEx) 1 ("We target students")).1)
        2 ("Open on weekends")).1.map (fun d => d.enrichedContext))
      = some ("We run a shop\n\n[USER CLARIFICATION]: Open on weekends") ∧
    strContains ("We run a shop\n\n[USER CLARIFICATION]: Open on weekends")
        ("We run a shop\n\n[USER CLARIFICATION]: We target students") = false ∧
    ((clarifyStep (some sessionEx) 1 ("We target students")).1.map
        (fun d => d.turnCount)) = some 2 ∧
    ((clarifyStep (releaseLock (clarifyStep (some sessionEx) 1 ("We target students")).1)
        2 ("Open on weekends")).1.map (fun d => d.turnCount)) = some 3 := by
  refine ⟨by decide, by decide, by decide, by decide, by decide⟩

/-- C4 amended: each completed clarification turn strictly increments the
stored `turnCount`, and stores as `enrichedContext` the session's
`originalContext` (when non-empty) extended with the latest clarification
only — so every stored value contains the original context, but successive
stored values need not contain one another (earlier clarifications are
dropped). -/
theorem clarify_turn_rebuilds_from_original
    (d : SessionDoc) (now : Nat) (clarification : String)
    (hproc : d.processing = false) (hexp : ¬ now > d.expiresAt)
    (horig : d.originalContext ≠ "") :
    (clarifyStep (some d) now clarification).1
      = some { d with turnCount := d.turnCount + 1,
                      enrichedContext :=
                        d.originalContext ++ CLARIFICATION_SEP ++ clarification,
                      processing := true } ∧
    (clarifyStep (some d) now clarification).2
      = .proceeded (d.turnCount + 1) d.usedLenses ∧
    d.turnCount < d.turnCount + 1 := by
  refine ⟨?_, ?_, by omega⟩ <;>
    simp [clarifyStep, getSession, hexp, incrementTurn, hproc,
      cumulativeContext, jsOrStr, horig]

/-- Witness for C4 (amended): one clarification turn on the example session
stores turn count 2 and the original context plus the new clarification. -/
theorem clarify_turn_rebuilds_from_original_witness :
    sessionEx.processing = false ∧ ¬ (5 : Nat) > sessionEx.expiresAt ∧
    sessionEx.originalContext ≠ "" ∧
    ((clarifyStep (some sessionEx) 5 ("We deliver")).1
        = some { sessionEx with
            turnCount := sessionEx.turnCount + 1,
            enrichedContext :=
              sessionEx.originalContext ++ CLARIFICATION_SEP ++ ("We deliver"),
            processing := true } ∧
     (clarifyStep (some sessionEx) 5 ("We deliver")).2
        = .proceeded (sessionEx.turnCount + 1) sessionEx.usedLenses ∧
     sessionEx.turnCount < sessionEx.turnCount + 1) :=
  ⟨by decide, by decide, by decide,
   clarify_turn_rebuilds_from_original sessionEx 5 ("We deliver")
     (by decide) (by decide) (by decide)⟩

/-! ### Claim C7 — lock exclusion -/

/-- C7: a clarification submission against a locked session
(`processing = true`) returns the distinct `alreadyProcessing` outcome and
leaves the stored document entirely unchanged; and of two serialized
submissions against an unlocked session (the store's transactions
serialize conflicting updates), the first proceeds and the second is
rejected as `alreadyProcessing` without further mutating the state. -/
theorem clarify_lock_exclusion
    (d : SessionDoc) (now now' : Nat) (clar clar' : String)
    (hexp : ¬ now > d.expiresAt) (hexp' : ¬ now' > d.expiresAt) :
    (d.processing = true →
      clarifyStep (some d) now clar = (some d, .alreadyProcessing)) ∧
    (d.processing = false →
      (clarifyStep (some d) now clar).2
          = .proceeded (d.turnCount + 1) d.usedLenses ∧
      clarifyStep ((clarifyStep (some d) now clar).1) now' clar'
          = ((clarifyStep (some d) now clar).1, .alreadyProcessing)) := by
  constructor
  · intro hp
    simp [clarifyStep, getSession, hexp, incrementTurn, hp]
  · intro hp
    constructor
    · simp [clarifyStep, getSession, hexp, incrementTurn, hp]
    · simp [clarifyStep, getSession, hexp, hexp', incrementTurn, hp]

/-- Witness for C7: on the unlocked example session, the first submission
proceeds (turn 2) and an immediately following submission is rejected with
the distinct already-processing outcome, leaving the store as the first
submission wrote it. -/
theorem clarify_lock_exclusion_witness :
    ¬ (1 : Nat) > sessionEx.expiresAt ∧ ¬ (2 : Nat) > sessionEx.expiresAt ∧
    ((sessionEx.processing = true →
        clarifyStep (some sessionEx) 1 ("A") = (some sessionEx, .alreadyProcessing)) ∧
     (sessionEx.processing = false →
        (clarifyStep (some sessionEx) 1 ("A")).2
            = .proceeded (sessionEx.turnCount + 1) sessionEx.usedLenses ∧
        clarifyStep ((clarifyStep (some sessionEx) 1 ("A")).1) 2 ("B")
            = ((clarifyStep (some sessionEx) 1 ("A")).1, .alreadyProcessing))) :=
  ⟨by decide, by decide,
   clarify_lock_exclusion sessionEx 1 2 ("A") ("B") (by decide) (by decide)⟩

/-- Witness for C10 (amended): with baseline `CAC/LTV Ratio` 70 stressed to
32, the produced card carries `riskDelta = 38` and the top-level
`riskDeltas` entry is −38. -/
theorem card_riskDelta_falsy_baseline_witness :
    stressCardEx ∈ (triggerStressTestCompute baselineEx
        (some stressParsedEx)).mitigationCards ∧
    ((∀ o, mapLookup baselineEx stressCardEx.dimension = some o → o ≠ 0 →
        stressCardEx.riskDelta = o - stressCardEx.stressedScore) ∧
     ((mapLookup baselineEx stressCardEx.dimension = none ∨
         mapLookup baselineEx stressCardEx.dimension = some 0) →
         stressCardEx.riskDelta = 50 - stressCardEx.stressedScore) ∧
     (∀ o, mapLookup baselineEx stressCardEx.dimension = some o → o ≠ 0 →
         stressCardEx.dimension ∈ DIM_NAMES →
         mapLookup stressParsedEx.stressed_scores stressCardEx.dimension
           = some stressCardEx.stressedScore →
         mapLookup (triggerStressTestCompute baselineEx
             (some stressParsedEx)).riskDeltas stressCardEx.dimension
           = some (- stressCardEx.riskDelta))) :=
  ⟨by decide, card_riskDelta_falsy_baseline baselineEx stressParsedEx
    stressCardEx (by decide)⟩

end VelocityCSO
